import Mathlib

/-!
Verification of the multi-step form navigation store
(src/src/context/MultiStepFormContext.tsx).

The store state holds the active position `(activeStepIndex, activeSubStepIndex)`,
the step tree `steps` (an array of arrays of opaque renderable units, modelled by
a type parameter `α`), and the flat field mapping `formData`. Indices are
modelled as `Int` since the reducer performs unchecked arithmetic that can leave
the valid range (negative after PREV at 0, past the end after NEXT at the last
step, arbitrary after GOTO). JavaScript array access `steps[i]` on an
out-of-range `i` yields `undefined`, so the subsequent `.length` read in the
NEXT branch throws a TypeError; the reducer is therefore embedded as a function
into `Except String`, with `.error` covering both the thrown TypeError and the
reducer's explicit `throw new Error` in the default branch.
-/

/-- The fixed-shape field mapping `CreateAccountFormData` (src lines 15-26):
ten named string fields. -/
structure CreateAccountFormData where
  firstName : String
  lastName : String
  age : String
  street : String
  city : String
  state : String
  zip : String
  email : String
  password : String
  code : String
deriving Repr, DecidableEq

/-- The shape `Partial<CreateAccountFormData>`: each field optionally present. A field
that is absent from the object is `none`. -/
structure FormDataPatch where
  firstName : Option String := none
  lastName : Option String := none
  age : Option String := none
  street : Option String := none
  city : Option String := none
  state : Option String := none
  zip : Option String := none
  email : Option String := none
  password : Option String := none
  code : Option String := none
deriving Repr, DecidableEq

/-- Object spread `{ ...old, ...fields }` on the fixed-shape form data: every
field present in `fields` overrides, every absent field keeps its prior
value (src lines 114-120). -/
def mergeFormData (old : CreateAccountFormData) (p : FormDataPatch) :
    CreateAccountFormData where
  firstName := p.firstName.getD old.firstName
  lastName := p.lastName.getD old.lastName
  age := p.age.getD old.age
  street := p.street.getD old.street
  city := p.city.getD old.city
  state := p.state.getD old.state
  zip := p.zip.getD old.zip
  email := p.email.getD old.email
  password := p.password.getD old.password
  code := p.code.getD old.code

/-- The reducer state (interface `MultiStepForm`, src lines 28-41, restricted
to the fields the reducer reads and writes: position, step tree and form data;
the remaining interface members are derived values and callback handles). The
renderable units are opaque to the store, hence the type parameter `α`. -/
structure MultiStepForm (α : Type) where
  activeStepIndex : Int
  activeSubStepIndex : Int
  steps : List (List α)
  formData : CreateAccountFormData
deriving Repr, DecidableEq

/-- The four action kinds of the `Types` enum (src lines 47-52) with the
payloads the reducer body reads (`action.index`, `action.fields`), plus
`unknown tag` standing for any action descriptor whose `type` string `tag`
is outside the closed set and thus reaches the `default` branch. -/
inductive MultiStepFormActions where
  | next
  | prev
  | goto (index : Int)
  | updateFormData (fields : FormDataPatch)
  | unknown (tag : String)
deriving Repr, DecidableEq

/-- JavaScript array subscript `xs[i]` for an integer `i`: `undefined`
(modelled `none`) when `i` is negative or past the end. -/
def jsIndex {β : Type} (xs : List β) (i : Int) : Option β :=
  if i < 0 then none else xs.get? i.toNat

/-- Message of the TypeError thrown by reading `.length` off `undefined`
when `steps[activeStepIndex]` is out of range in the NEXT branch. -/
def jsUndefinedLengthError : String :=
  "TypeError: Cannot read properties of undefined (reading 'length')"

/-- The reducer `multiStepFormReducer` (src lines 65-127). The NEXT branch reads
`steps[activeStepIndex].length` (src line 71), which throws when
`activeStepIndex` is out of range; PREV, GOTO and UPDATE_FORM_DATA never touch
the step tree. The default branch throws `Invalid action type: ...`
(src line 124). -/
def multiStepFormReducer {α : Type} (state : MultiStepForm α)
    (action : MultiStepFormActions) : Except String (MultiStepForm α) :=
  match action with
  | .next =>
    match jsIndex state.steps state.activeStepIndex with
    | none => .error jsUndefinedLengthError
    | some subSteps =>
      let nextSubStepIndex := state.activeSubStepIndex + 1
      if 1 < subSteps.length then
        if nextSubStepIndex = (subSteps.length : Int) then
          .ok { state with
                  activeStepIndex := state.activeStepIndex + 1
                  activeSubStepIndex := 0 }
        else
          .ok { state with activeSubStepIndex := nextSubStepIndex }
      else
        .ok { state with
                activeStepIndex := state.activeStepIndex + 1
                activeSubStepIndex := 0 }
  | .prev =>
      .ok { state with
              activeStepIndex := state.activeStepIndex - 1
              activeSubStepIndex := 0 }
  | .goto index =>
      .ok { state with
              activeStepIndex := index
              activeSubStepIndex := 0 }
  | .updateFormData fields =>
      .ok { state with formData := mergeFormData state.formData fields }
  | .unknown tag => .error ("Invalid action type: " ++ tag)

/-- The initial field mapping `initialFormData` (src lines 134-145): all ten fields empty. -/
def initialFormData : CreateAccountFormData where
  firstName := ""
  lastName := ""
  age := ""
  street := ""
  city := ""
  state := ""
  zip := ""
  email := ""
  password := ""
  code := ""

/-- The store state at session start (src lines 149-153) together with the
step tree held by the hook. -/
def initialState {α : Type} (steps : List (List α)) : MultiStepForm α where
  activeStepIndex := 0
  activeSubStepIndex := 0
  steps := steps
  formData := initialFormData

/-- Intended derived flag of src line 178, `activeStepIndex === 0`, with
`activeStepIndex` read from the reducer state as the expression evidently
means. As written the identifier is unbound in the hook's scope; see
`hookScopeHas` and `isFirstStepJS` for the actual evaluation. -/
def isFirstStep {α : Type} (s : MultiStepForm α) : Bool :=
  s.activeStepIndex == 0

/-- Intended derived flag of src line 179,
`activeStepIndex === steps.length - 1`, with `activeStepIndex` read from the
reducer state as the expression evidently means. As written the identifier is
unbound in the hook's scope; see `hookScopeHas` and `isLastStepJS` for the
actual evaluation. -/
def isLastStep {α : Type} (s : MultiStepForm α) : Bool :=
  s.activeStepIndex == (s.steps.length : Int) - 1

/-- The identifiers bound in `useMultiStepForm`'s scope where the return
object at src lines 173-186 is evaluated: the parameter binding (line 147),
`childFormRef` (line 132), `initialFormData` (line 134), `state` and
`dispatch` (line 149), `steps` (line 155), and the four action creators
(lines 157-171). Nothing in the hook destructures the reducer state, so
`activeStepIndex`, `activeSubStepIndex` and `formData` are not bound. -/
def hookScopeHas (name : String) : Bool :=
  name ∈ ["props", "initialSteps", "childFormRef", "initialFormData", "state",
          "dispatch", "steps", "next", "back", "goTo", "updateFormData"]

/-- Evaluation of the expression `activeStepIndex === 0` at src line 178 in
the hook's scope: reading the identifier `activeStepIndex` throws a
ReferenceError when it is unbound, before any comparison happens; were it
bound, it could only denote the reducer state's field. -/
def isFirstStepJS {α : Type} (state : MultiStepForm α) : Except String Bool :=
  if hookScopeHas "activeStepIndex" then .ok (state.activeStepIndex == 0)
  else .error "ReferenceError: activeStepIndex is not defined"

/-- Evaluation of the expression `activeStepIndex === steps.length - 1` at
src line 179 in the hook's scope: reading the identifier `activeStepIndex`
throws a ReferenceError when it is unbound, before any comparison happens;
were it bound, it could only denote the reducer state's field. -/
def isLastStepJS {α : Type} (state : MultiStepForm α) : Except String Bool :=
  if hookScopeHas "activeStepIndex" then
    .ok (state.activeStepIndex == (state.steps.length : Int) - 1)
  else .error "ReferenceError: activeStepIndex is not defined"

/-- Iteration of `n` successive NEXT transitions, stopping at the first error. -/
def advanceIter {α : Type} : Nat → MultiStepForm α →
    Except String (MultiStepForm α)
  | 0, s => .ok s
  | n + 1, s => (advanceIter n s).bind (fun t => multiStepFormReducer t .next)

/-- The lookup `useMultiStepFormContext` (src lines 203-211): the ambient-context lookup.
`none` models the absence of a provider in scope (`useContext` returned
`null`); the guard throws before any value is returned. -/
def useMultiStepFormContext {α : Type} (context : Option (MultiStepForm α)) :
    Except String (MultiStepForm α) :=
  match context with
  | none =>
      .error "useMultiStepFormContext must be used within a MultiStepFormProvider"
  | some ctx => .ok ctx

/-! Helper lemmas about the NEXT branch. -/

/-- Within a multi-substep step, NEXT increments only the substep index. -/
theorem reducer_next_within {α : Type} (s : MultiStepForm α) (sub : List α)
    (hsub : jsIndex s.steps s.activeStepIndex = some sub)
    (h0 : 0 ≤ s.activeSubStepIndex)
    (hlt : s.activeSubStepIndex + 1 < (sub.length : Int)) :
    multiStepFormReducer s .next =
      .ok { s with activeSubStepIndex := s.activeSubStepIndex + 1 } := by
  have hgt : 1 < sub.length := by
    rcases Nat.lt_or_ge 1 sub.length with h | h
    · exact h
    · exfalso
      have : (sub.length : Int) ≤ 1 := by exact_mod_cast h
      omega
  simp only [multiStepFormReducer, hsub]
  rw [if_pos hgt, if_neg (by omega)]

/-- At the last substep of a multi-substep step, NEXT bumps the step index
and resets the substep index. -/
theorem reducer_next_boundary {α : Type} (s : MultiStepForm α) (sub : List α)
    (hsub : jsIndex s.steps s.activeStepIndex = some sub)
    (hgt : 1 < sub.length)
    (heq : s.activeSubStepIndex + 1 = (sub.length : Int)) :
    multiStepFormReducer s .next =
      .ok { s with
              activeStepIndex := s.activeStepIndex + 1
              activeSubStepIndex := 0 } := by
  simp only [multiStepFormReducer, hsub]
  rw [if_pos hgt, if_pos heq]

/-- On a step with at most one substep, NEXT bumps the step index and resets
the substep index. -/
theorem reducer_next_single {α : Type} (s : MultiStepForm α) (sub : List α)
    (hsub : jsIndex s.steps s.activeStepIndex = some sub)
    (hle : sub.length ≤ 1) :
    multiStepFormReducer s .next =
      .ok { s with
              activeStepIndex := s.activeStepIndex + 1
              activeSubStepIndex := 0 } := by
  simp only [multiStepFormReducer, hsub]
  rw [if_neg (by omega)]

/-- C3: `goTo(k)` unconditionally yields position `(k, 0)`, with no bounds
validation: for every prior state and every integer `k`, the GOTO transition
returns `.ok` with `activeStepIndex = k` and `activeSubStepIndex = 0`,
everything else unchanged. -/
theorem goTo_unconditional {α : Type} (s : MultiStepForm α) (k : Int) :
    multiStepFormReducer s (.goto k) =
      .ok { s with activeStepIndex := k, activeSubStepIndex := 0 } := rfl

/-- C6: an action descriptor whose kind is outside the closed set
{NEXT, PREV, GOTO, UPDATE_FORM_DATA} makes the reducer throw the explicit
`Invalid action type` error; it never returns a state. -/
theorem unknown_action_throws {α : Type} (s : MultiStepForm α) (tag : String)
    (hout : tag ∉ ["NEXT", "PREV", "GOTO", "UPDATE_FORM_DATA"]) :
    multiStepFormReducer s (.unknown tag) =
        .error ("Invalid action type: " ++ tag) ∧
      ∀ t : MultiStepForm α, multiStepFormReducer s (.unknown tag) ≠ .ok t := by
  refine ⟨rfl, fun t h => ?_⟩
  exact Except.noConfusion h

/-- Witness for C6: the reducer rejects the concrete unknown tag "RESET". -/
theorem unknown_action_throws_witness :
    multiStepFormReducer (initialState ([[0]] : List (List Nat)))
        (.unknown "RESET") = .error ("Invalid action type: " ++ "RESET") ∧
      ∀ t : MultiStepForm Nat,
        multiStepFormReducer (initialState [[0]]) (.unknown "RESET") ≠ .ok t :=
  unknown_action_throws (initialState [[0]]) "RESET" (by decide)

/-- C9 fails on the code as written: the return object at src lines 173-186
references `activeStepIndex`, which is never bound in `useMultiStepForm`'s
scope, so evaluating either flag expression throws
`ReferenceError: activeStepIndex is not defined` and no flag value is ever
produced; the evidently intended expressions, reading the field from the
reducer state as the claim says, do satisfy the stated biconditionals. -/
theorem flags_unbound_identifier {α : Type} (s : MultiStepForm α) :
    isFirstStepJS s =
        .error "ReferenceError: activeStepIndex is not defined" ∧
      isLastStepJS s =
        .error "ReferenceError: activeStepIndex is not defined" ∧
      (∀ b, isFirstStepJS s ≠ .ok b) ∧
      (∀ b, isLastStepJS s ≠ .ok b) ∧
      (isFirstStep s = true ↔ s.activeStepIndex = 0) ∧
      (isLastStep s = true ↔
        s.activeStepIndex = (s.steps.length : Int) - 1) := by
  have h1 : isFirstStepJS s =
      .error "ReferenceError: activeStepIndex is not defined" := rfl
  have h2 : isLastStepJS s =
      .error "ReferenceError: activeStepIndex is not defined" := rfl
  refine ⟨h1, h2, ?_, ?_, ?_, ?_⟩
  · intro b h
    rw [h1] at h
    exact Except.noConfusion h
  · intro b h
    rw [h2] at h
    exact Except.noConfusion h
  · simp [isFirstStep]
  · simp [isLastStep]

/-- C10: reading the store outside a provider scope (`context = none`) throws
the explicit session error, never returning a state; inside a provider scope
it returns the provided instance unchanged. -/
theorem context_outside_session_throws (α : Type) :
    useMultiStepFormContext (none : Option (MultiStepForm α)) =
        .error "useMultiStepFormContext must be used within a MultiStepFormProvider" ∧
      (∀ t : MultiStepForm α,
        useMultiStepFormContext (none : Option (MultiStepForm α)) ≠ .ok t) ∧
      ∀ ctx : MultiStepForm α, useMultiStepFormContext (some ctx) = .ok ctx := by
  refine ⟨rfl, fun t h => Except.noConfusion h, fun ctx => rfl⟩

/-- C1: on a step with `N > 1` substeps, starting at substep 0, each of the
first `N-1` NEXT transitions keeps the step index and moves the substep index
to `k` after `k` calls (so each call increments it by exactly 1), and the
`N`-th call yields position `(stepIndex + 1, 0)`. -/
theorem advance_through_substeps {α : Type} (s : MultiStepForm α)
    (sub : List α) (N : Nat)
    (hsub : jsIndex s.steps s.activeStepIndex = some sub)
    (hN : sub.length = N) (hN1 : 1 < N) (h0 : s.activeSubStepIndex = 0) :
    (∀ k, k ≤ N - 1 →
        advanceIter k s = .ok { s with activeSubStepIndex := (k : Int) }) ∧
      advanceIter N s =
        .ok { s with
                activeStepIndex := s.activeStepIndex + 1
                activeSubStepIndex := 0 } := by
  have key : ∀ k, k ≤ N - 1 →
      advanceIter k s = .ok { s with activeSubStepIndex := (k : Int) } := by
    intro k
    induction k with
    | zero =>
      intro _
      have hs : ({ s with activeSubStepIndex := ((0 : Nat) : Int) } :
          MultiStepForm α) = s := by
        cases s
        simp_all
      rw [hs]
      rfl
    | succ k ih =>
      intro hk
      have hstep := ih (Nat.le_of_succ_le hk)
      show (advanceIter k s).bind (fun t => multiStepFormReducer t .next) = _
      rw [hstep]
      show multiStepFormReducer
          ({ s with activeSubStepIndex := (k : Int) }) .next = _
      rw [reducer_next_within ({ s with activeSubStepIndex := (k : Int) }) sub
        hsub (Int.ofNat_nonneg k)
        (by show (k : Int) + 1 < (sub.length : Int); rw [hN]; omega)]
      rfl
  refine ⟨key, ?_⟩
  have hfin := key (N - 1) (Nat.le_refl _)
  have hNd : N = (N - 1) + 1 := by omega
  rw [hNd]
  show (advanceIter (N - 1) s).bind (fun t => multiStepFormReducer t .next) = _
  rw [hfin]
  show multiStepFormReducer
      ({ s with activeSubStepIndex := ((N - 1 : Nat) : Int) }) .next = _
  rw [reducer_next_boundary ({ s with activeSubStepIndex := ((N - 1 : Nat) : Int) })
    sub hsub (by omega)
    (by show ((N - 1 : Nat) : Int) + 1 = (sub.length : Int); rw [hN]; omega)]

/-- Witness for C1: with a single step holding three substeps, the first two
NEXT transitions move the substep index to 1 and then 2, and the third yields
position `(1, 0)`. -/
theorem advance_through_substeps_witness :
    advanceIter 1 (initialState ([[10, 20, 30]] : List (List Nat))) =
        .ok { initialState [[10, 20, 30]] with activeSubStepIndex := 1 } ∧
      advanceIter 2 (initialState ([[10, 20, 30]] : List (List Nat))) =
        .ok { initialState [[10, 20, 30]] with activeSubStepIndex := 2 } ∧
      advanceIter 3 (initialState ([[10, 20, 30]] : List (List Nat))) =
        .ok { initialState [[10, 20, 30]] with
                activeStepIndex := 1
                activeSubStepIndex := 0 } := by
  have h := advance_through_substeps (initialState ([[10, 20, 30]] : List (List Nat)))
    [10, 20, 30] 3 rfl rfl (by omega) rfl
  exact ⟨h.1 1 (by omega), h.1 2 (by omega), h.2⟩

/-- C2 (amended): PREV always yields `(stepIndex - 1, 0)` regardless of the
prior substep index; consequently NEXT followed by PREV always lands on
substep 0 of either the original step (when NEXT crossed a step boundary) or
the step before it (when NEXT stayed within the step), never back on a
positive original substep index. -/
theorem retreat_resets_substep {α : Type} (s : MultiStepForm α) :
    multiStepFormReducer s .prev =
        .ok { s with
                activeStepIndex := s.activeStepIndex - 1
                activeSubStepIndex := 0 } ∧
      ∀ t u, multiStepFormReducer s .next = .ok t →
        multiStepFormReducer t .prev = .ok u →
        u.activeSubStepIndex = 0 ∧
          (u.activeStepIndex = s.activeStepIndex ∨
            u.activeStepIndex = s.activeStepIndex - 1) := by
  refine ⟨rfl, fun t u hnext hprev => ?_⟩
  simp only [multiStepFormReducer, Except.ok.injEq] at hprev
  subst hprev
  rcases hjs : jsIndex s.steps s.activeStepIndex with _ | sub
  · rw [multiStepFormReducer, hjs] at hnext
    exact Except.noConfusion hnext
  · rw [multiStepFormReducer, hjs] at hnext
    simp only at hnext
    split_ifs at hnext <;>
      (simp only [Except.ok.injEq] at hnext; subst hnext; simp)

/-- Concrete start state for the C2 witness: position `(0, 0)` over the step
tree `[[5], [6, 7]]`. -/
def c2Start : MultiStepForm Nat := initialState [[5], [6, 7]]

/-- State after NEXT from `c2Start`: position `(1, 0)`. -/
def c2Mid : MultiStepForm Nat :=
  { c2Start with activeStepIndex := 1, activeSubStepIndex := 0 }

/-- State after PREV from `c2Mid`: position `(0, 0)`. -/
def c2End : MultiStepForm Nat :=
  { c2Mid with activeStepIndex := 0, activeSubStepIndex := 0 }

/-- Witness for C2 (amended): from `(0, 0)` on a single-substep first step,
NEXT reaches `(1, 0)` and PREV then lands on `(0, 0)`: substep 0 of the
original step. -/
theorem retreat_resets_substep_witness :
    c2End.activeSubStepIndex = 0 ∧
      (c2End.activeStepIndex = c2Start.activeStepIndex ∨
        c2End.activeStepIndex = c2Start.activeStepIndex - 1) :=
  (retreat_resets_substep c2Start).2 c2Mid c2End rfl rfl

/-- Prior state for the C2 counterexample: position `(1, 0)` over the step
tree `[[0], [1, 2], [3]]`, whose middle step has two substeps. -/
def c2Prior : MultiStepForm Nat :=
  { activeStepIndex := 1, activeSubStepIndex := 0,
    steps := [[0], [1, 2], [3]], formData := initialFormData }

/-- Counterexample to C2 as stated: with steps `[[0], [1, 2], [3]]` and prior
state `(1, 0)`, NEXT stays within step 1 (reaching `(1, 1)`) and PREV then
lands on `(0, 0)`, not on `(stepIndex, 0) = (1, 0)`. -/
theorem advance_retreat_leaves_step :
    (multiStepFormReducer c2Prior .next).bind
        (fun t => multiStepFormReducer t .prev) =
      .ok { c2Prior with activeStepIndex := 0, activeSubStepIndex := 0 } ∧
    (multiStepFormReducer c2Prior .next).bind
        (fun t => multiStepFormReducer t .prev) ≠
      .ok { c2Prior with activeStepIndex := 1, activeSubStepIndex := 0 } := by
  have h1 : (multiStepFormReducer c2Prior .next).bind
      (fun t => multiStepFormReducer t .prev) =
      .ok { c2Prior with activeStepIndex := 0, activeSubStepIndex := 0 } := rfl
  refine ⟨h1, fun h => ?_⟩
  rw [h1] at h
  simp only [Except.ok.injEq, MultiStepForm.mk.injEq] at h
  exact absurd h.1 (by norm_num [c2Prior])

/-- C5: UPDATE_FORM_DATA always succeeds, merges the patch into the form
data, keeps every field absent from the patch at its prior value, leaves the
navigation position and the step tree unchanged, and in particular two
successive single-field updates from the initial state leave both fields set
and all others at their empty-string defaults. -/
theorem updateFormData_frame {α : Type} (s : MultiStepForm α)
    (p : FormDataPatch) :
    multiStepFormReducer s (.updateFormData p) =
        .ok { s with formData := mergeFormData s.formData p } ∧
      (p.firstName = none →
        (mergeFormData s.formData p).firstName = s.formData.firstName) ∧
      (p.lastName = none →
        (mergeFormData s.formData p).lastName = s.formData.lastName) ∧
      (p.age = none → (mergeFormData s.formData p).age = s.formData.age) ∧
      (p.street = none →
        (mergeFormData s.formData p).street = s.formData.street) ∧
      (p.city = none → (mergeFormData s.formData p).city = s.formData.city) ∧
      (p.state = none →
        (mergeFormData s.formData p).state = s.formData.state) ∧
      (p.zip = none → (mergeFormData s.formData p).zip = s.formData.zip) ∧
      (p.email = none →
        (mergeFormData s.formData p).email = s.formData.email) ∧
      (p.password = none →
        (mergeFormData s.formData p).password = s.formData.password) ∧
      (p.code = none → (mergeFormData s.formData p).code = s.formData.code) ∧
      ({ s with formData := mergeFormData s.formData p }).activeStepIndex =
          s.activeStepIndex ∧
      ({ s with formData := mergeFormData s.formData p }).activeSubStepIndex =
          s.activeSubStepIndex ∧
      ({ s with formData := mergeFormData s.formData p }).steps = s.steps ∧
      (multiStepFormReducer (initialState ([] : List (List α)))
            (.updateFormData { firstName := some "x" })).bind
          (fun t => multiStepFormReducer t
            (.updateFormData { lastName := some "y" })) =
        .ok { initialState ([] : List (List α)) with
                formData := { initialFormData with
                                firstName := "x"
                                lastName := "y" } } := by
  refine ⟨rfl, ?_, ?_, ?_, ?_, ?_, ?_, ?_, ?_, ?_, ?_, rfl, rfl, rfl, rfl⟩ <;>
    (intro h; simp [mergeFormData, h])

/-- Witness for C5: with the empty patch every field keeps its prior value,
and the two concrete single-field updates compose as claimed. -/
theorem updateFormData_frame_witness :
    multiStepFormReducer (initialState ([[0]] : List (List Nat)))
        (.updateFormData {}) =
        .ok { initialState [[0]] with
                formData := mergeFormData initialFormData {} } ∧
      (mergeFormData initialFormData {}).firstName = initialFormData.firstName ∧
      (mergeFormData initialFormData {}).lastName = initialFormData.lastName ∧
      (mergeFormData initialFormData {}).age = initialFormData.age ∧
      (mergeFormData initialFormData {}).street = initialFormData.street ∧
      (mergeFormData initialFormData {}).city = initialFormData.city ∧
      (mergeFormData initialFormData {}).state = initialFormData.state ∧
      (mergeFormData initialFormData {}).zip = initialFormData.zip ∧
      (mergeFormData initialFormData {}).email = initialFormData.email ∧
      (mergeFormData initialFormData {}).password = initialFormData.password ∧
      (mergeFormData initialFormData {}).code = initialFormData.code ∧
      (multiStepFormReducer (initialState ([] : List (List Nat)))
            (.updateFormData { firstName := some "x" })).bind
          (fun t => multiStepFormReducer t
            (.updateFormData { lastName := some "y" })) =
        .ok { initialState ([] : List (List Nat)) with
                formData := { initialFormData with
                                firstName := "x"
                                lastName := "y" } } := by
  obtain ⟨h1, h2, h3, h4, h5, h6, h7, h8, h9, h10, h11, h12, h13, h14, h15⟩ :=
    updateFormData_frame (initialState ([[0]] : List (List Nat))) {}
  exact ⟨h1, h2 rfl, h3 rfl, h4 rfl, h5 rfl, h6 rfl, h7 rfl, h8 rfl, h9 rfl,
    h10 rfl, h11 rfl, h15⟩

/-- C7: out-of-range navigation raises no error. NEXT at the last substep of
the last step returns `.ok` with `stepIndex = steps.length` (out of range);
PREV at step 0 returns `.ok` with `stepIndex = -1`; GOTO with any integer,
valid or not, returns `.ok` with that integer as `stepIndex`; all with
`subStepIndex = 0`. -/
theorem out_of_range_navigation_no_error {α : Type}
    (s₁ s₂ s₃ : MultiStepForm α) (k : Int) (sub : List α)
    (h1 : jsIndex s₁.steps s₁.activeStepIndex = some sub)
    (h2 : s₁.activeStepIndex = (s₁.steps.length : Int) - 1)
    (h3 : s₁.activeSubStepIndex + 1 = (sub.length : Int))
    (h4 : s₂.activeStepIndex = 0) :
    multiStepFormReducer s₁ .next =
        .ok { s₁ with
                activeStepIndex := (s₁.steps.length : Int)
                activeSubStepIndex := 0 } ∧
      multiStepFormReducer s₂ .prev =
        .ok { s₂ with activeStepIndex := -1, activeSubStepIndex := 0 } ∧
      multiStepFormReducer s₃ (.goto k) =
        .ok { s₃ with activeStepIndex := k, activeSubStepIndex := 0 } := by
  refine ⟨?_, ?_, rfl⟩
  · have hstep : s₁.activeStepIndex + 1 = (s₁.steps.length : Int) := by omega
    rcases Nat.lt_or_ge 1 sub.length with hgt | hle
    · rw [reducer_next_boundary s₁ sub h1 hgt h3, hstep]
    · rw [reducer_next_single s₁ sub h1 hle, hstep]
  · show Except.ok _ = _
    rw [h4]
    rfl

/-- Concrete state for the C7 witness: the last substep of the last step of
`[[1], [2, 3]]`. -/
def c7Last : MultiStepForm Nat :=
  { activeStepIndex := 1, activeSubStepIndex := 1,
    steps := [[1], [2, 3]], formData := initialFormData }

/-- Witness for C7: advancing from the last substep of the last step of
`[[1], [2, 3]]` yields the out-of-range step index 2, retreating from step 0
yields step index -1, and GOTO 99 yields step index 99, all without error. -/
theorem out_of_range_navigation_no_error_witness :
    multiStepFormReducer c7Last .next =
        .ok { c7Last with activeStepIndex := 2, activeSubStepIndex := 0 } ∧
      multiStepFormReducer (initialState ([[1], [2, 3]] : List (List Nat)))
          .prev =
        .ok { initialState [[1], [2, 3]] with
                activeStepIndex := -1
                activeSubStepIndex := 0 } ∧
      multiStepFormReducer (initialState ([[1], [2, 3]] : List (List Nat)))
          (.goto 99) =
        .ok { initialState [[1], [2, 3]] with
                activeStepIndex := 99
                activeSubStepIndex := 0 } :=
  out_of_range_navigation_no_error c7Last
    (initialState [[1], [2, 3]]) (initialState [[1], [2, 3]]) 99 [2, 3]
    rfl rfl rfl rfl

/-- C8: the NEXT branch reads the substep list at the current step before
deciding how to move. The read is `undefined` exactly when the step index
violates `0 ≤ activeStepIndex < steps.length`; from such a state NEXT faults
with the TypeError while PREV and GOTO still succeed (they never read the
step list), and from any in-range state NEXT succeeds. -/
theorem next_faults_out_of_range {α : Type} (s : MultiStepForm α) (k : Int) :
    (jsIndex s.steps s.activeStepIndex = none ↔
        ¬(0 ≤ s.activeStepIndex ∧
          s.activeStepIndex < (s.steps.length : Int))) ∧
      (jsIndex s.steps s.activeStepIndex = none →
        multiStepFormReducer s .next = .error jsUndefinedLengthError ∧
          multiStepFormReducer s .prev =
            .ok { s with
                    activeStepIndex := s.activeStepIndex - 1
                    activeSubStepIndex := 0 } ∧
          multiStepFormReducer s (.goto k) =
            .ok { s with activeStepIndex := k, activeSubStepIndex := 0 }) ∧
      (∀ sub, jsIndex s.steps s.activeStepIndex = some sub →
        ∃ t, multiStepFormReducer s .next = .ok t) := by
  refine ⟨?_, ?_, ?_⟩
  · unfold jsIndex
    split_ifs with hneg
    · simp
      omega
    · rw [List.get?_eq_none]
      constructor
      · intro h hc
        omega
      · intro h
        by_contra hc
        push_neg at hc
        omega
  · intro h
    refine ⟨?_, rfl, rfl⟩
    simp only [multiStepFormReducer, h]
  · intro sub h
    simp only [multiStepFormReducer, h]
    split_ifs <;> exact ⟨_, rfl⟩

/-- Concrete state for the C8 witness: step index 5 over the one-step tree
`[[2]]`, i.e. far out of range. -/
def c8Out : MultiStepForm Nat :=
  { activeStepIndex := 5, activeSubStepIndex := 0,
    steps := [[2]], formData := initialFormData }

/-- Witness for C8: at step index 5 over `[[2]]`, NEXT faults with the
TypeError while PREV and GOTO succeed; from the in-range initial state NEXT
succeeds. -/
theorem next_faults_out_of_range_witness :
    multiStepFormReducer c8Out .next = .error jsUndefinedLengthError ∧
      multiStepFormReducer c8Out .prev =
        .ok { c8Out with activeStepIndex := 4, activeSubStepIndex := 0 } ∧
      multiStepFormReducer c8Out (.goto 0) =
        .ok { c8Out with activeStepIndex := 0, activeSubStepIndex := 0 } ∧
      multiStepFormReducer (initialState ([[2]] : List (List Nat))) .next =
        .ok { initialState [[2]] with
                activeStepIndex := 1
                activeSubStepIndex := 0 } := by
  have h := (next_faults_out_of_range c8Out 0).2.1 (by rfl)
  exact ⟨h.1, h.2.1, h.2.2, rfl⟩

/-- A value passed to the store's `dispatch`. The action creators in
`useMultiStepForm` (src lines 157-171) pass the bare enum member — a plain
string — as the sole argument (for example `dispatch(Types.next)` at src
line 158), not a tagged action object of type `MultiStepFormActions`; the
extra `{index}` and `{fields}` arguments at src lines 166 and 170 are
discarded because `dispatch` takes a single argument. -/
inductive DispatchArg where
  | strVal (s : String)
  | actVal (a : MultiStepFormActions)
deriving Repr

/-- What `next()` actually dispatches (src line 158): the string "NEXT". -/
def nextDispatchArg : DispatchArg := .strVal "NEXT"

/-- What `back()` actually dispatches (src line 162): the string "PREV". -/
def backDispatchArg : DispatchArg := .strVal "PREV"

/-- What `goTo(index)` actually dispatches (src line 166): the string
"GOTO"; the second argument carrying `index` is dropped. -/
def goToDispatchArg (_ : Int) : DispatchArg := .strVal "GOTO"

/-- What `updateFormData(fields)` actually dispatches (src line 170): the
string "UPDATE_FORM_DATA"; the second argument carrying `fields` is
dropped. -/
def updateFormDataDispatchArg (_ : FormDataPatch) : DispatchArg :=
  .strVal "UPDATE_FORM_DATA"

/-- The reducer applied to an arbitrary dispatched value. The switch at src
line 66 reads `action.type`; a primitive string has no `type` property, so
the switch sees `undefined`, falls through to the default branch, and throws
`Invalid action type: undefined` (src line 124). A tagged action object is
handled by `multiStepFormReducer` as usual. -/
def multiStepFormReducerOnArg {α : Type} (state : MultiStepForm α)
    (arg : DispatchArg) : Except String (MultiStepForm α) :=
  match arg with
  | .actVal a => multiStepFormReducer state a
  | .strVal _ => .error "Invalid action type: undefined"

/-- C4 fails on the code: each wrapper dispatches the bare enum string, so
the reducer sees `action.type = undefined` and throws
`Invalid action type: undefined` instead of performing the transition; the
tagged NEXT action applied to the same state succeeds and produces `(1, 0)`.
The wrappers therefore do not correspond to the four reducer actions. -/
theorem wrappers_dispatch_strings_not_actions :
    multiStepFormReducerOnArg (initialState ([[7], [8, 9]] : List (List Nat)))
        nextDispatchArg = .error "Invalid action type: undefined" ∧
      multiStepFormReducerOnArg (initialState ([[7], [8, 9]] : List (List Nat)))
        backDispatchArg = .error "Invalid action type: undefined" ∧
      multiStepFormReducerOnArg (initialState ([[7], [8, 9]] : List (List Nat)))
        (goToDispatchArg 1) = .error "Invalid action type: undefined" ∧
      multiStepFormReducerOnArg (initialState ([[7], [8, 9]] : List (List Nat)))
        (updateFormDataDispatchArg { firstName := some "x" }) =
        .error "Invalid action type: undefined" ∧
      multiStepFormReducer (initialState ([[7], [8, 9]] : List (List Nat)))
        .next =
        .ok { initialState [[7], [8, 9]] with
                activeStepIndex := 1
                activeSubStepIndex := 0 } :=
  ⟨rfl, rfl, rfl, rfl, rfl⟩
